import Mathlib

set_option autoImplicit false

/-!
Verification of the personnel-service backend (`app/database.py`, `app/crud.py`,
`app/main.py`) against its specification.  The Python modules are shallowly
embedded: exceptions become an explicit error type, the SQLAlchemy session
becomes a committed/pending pair of row lists, and the tenacity retry decorator
becomes a fuel-indexed loop over the per-attempt outcomes of the wrapped
operation.
-/

namespace PersonnelService

/-- Exceptions that flow through the service.  `operationalError` models
`sqlalchemy.exc.OperationalError` (the Transient class), `sqlAlchemyError`
models any other `sqlalchemy.exc.SQLAlchemyError` (the Fatal class),
`valueError` models the `ValueError` raised by `date.fromisoformat` on a
malformed date string, and `httpException` models `fastapi.HTTPException`.
The `Nat` tag distinguishes individual exception instances, so that
"re-raised unchanged" is expressible. -/
inductive PyError where
  | operationalError (tag : Nat)
  | sqlAlchemyError (tag : Nat)
  | valueError
  | httpException (status : Nat) (detail : String)
deriving DecidableEq, Repr

/-- Python `isinstance(e, OperationalError)`. -/
def isOperationalError : PyError → Bool
  | .operationalError _ => true
  | _ => false

/-- Python `isinstance(e, SQLAlchemyError)`: in SQLAlchemy, `OperationalError`
is a subclass of `SQLAlchemyError`. -/
def isSQLAlchemyError : PyError → Bool
  | .operationalError _ => true
  | .sqlAlchemyError _ => true
  | _ => false

/-! ### The retry wrapper (`app/database.py`, `execute_with_retry`) -/

/-- Evaluation of tenacity's `wait_exponential(multiplier, min, max)` at a given
attempt number: `max(max(0, min), min(multiplier * 2 ** attempt_number, max))`. -/
def wait_exponential (multiplier minW maxW attemptNumber : Nat) : Nat :=
  Nat.max (Nat.max 0 minW) (Nat.min (multiplier * 2 ^ attemptNumber) maxW)

/-- Delay slept after the `k`-th failed attempt inside `execute_with_retry`,
with the source's configuration `wait_exponential(multiplier=1, min=4, max=30)`. -/
def retryDelay (k : Nat) : Nat := wait_exponential 1 4 30 k

/-- One run of the tenacity loop configured as on `execute_with_retry`
(`stop_after_attempt(5)`, `wait_exponential(multiplier=1, min=4, max=30)`,
`retry_if_exception_type(OperationalError)`, `reraise=True`).  `op k` is the
outcome of the `k`-th attempt of the wrapped zero-argument operation,
`attempt` the current attempt number, and the fuel argument how many further
attempts the stop condition still allows.  Returns the final outcome, the
number of the last attempt actually made, and the list of backoff delays slept
between attempts.  A non-`OperationalError` outcome stops the loop at once;
exhaustion re-raises the last exception unchanged. -/
def tenacityRun {α : Type} (op : Nat → Except PyError α) (attempt : Nat) :
    Nat → Except PyError α × Nat × List Nat
  | 0 => (op attempt, attempt, [])
  | r + 1 =>
    match op attempt with
    | .ok a => (.ok a, attempt, [])
    | .error e =>
      if isOperationalError e then
        let t := tenacityRun op (attempt + 1) r
        (t.1, t.2.1, retryDelay attempt :: t.2.2)
      else (.error e, attempt, [])

/-- Embedding of `execute_with_retry`: attempts are numbered from 1 and
`stop_after_attempt(5)` allows 4 further attempts after the first. -/
def execute_with_retry {α : Type} (op : Nat → Except PyError α) : Except PyError α :=
  (tenacityRun op 1 4).1

/-- Number of the last attempt `execute_with_retry` makes on `op`. -/
def retryAttempts {α : Type} (op : Nat → Except PyError α) : Nat :=
  (tenacityRun op 1 4).2.1

/-- Backoff delays `execute_with_retry` sleeps between attempts on `op`. -/
def retrySleeps {α : Type} (op : Nat → Except PyError α) : List Nat :=
  (tenacityRun op 1 4).2.2

/-- An attempt outcome that the session layer classifies as Transient. -/
def isTransientFailure {α : Type} (r : Except PyError α) : Prop :=
  ∃ i, r = .error (PyError.operationalError i)

theorem tenacityRun_all_transient {α : Type} (op : Nat → Except PyError α) :
    ∀ (r attempt : Nat),
      (∀ k, attempt ≤ k → k ≤ attempt + r → isTransientFailure (op k)) →
      tenacityRun op attempt r =
        (op (attempt + r), attempt + r, (List.range' attempt r).map retryDelay) := by
  intro r
  induction r with
  | zero =>
    intro attempt _
    simp [tenacityRun]
  | succ r ih =>
    intro attempt h
    obtain ⟨i, hi⟩ := h attempt (Nat.le_refl _) (by omega)
    have hrec := ih (attempt + 1) (fun k hk1 hk2 => h k (by omega) (by omega))
    simp only [tenacityRun, hi, isOperationalError, if_true]
    rw [hrec]
    have e1 : attempt + (r + 1) = attempt + 1 + r := by omega
    rw [e1, List.range'_succ, List.map_cons]

theorem tenacityRun_eventually_ok {α : Type} (op : Nat → Except PyError α) (a : α) :
    ∀ (m r attempt : Nat), m ≤ r →
      (∀ k, attempt ≤ k → k < attempt + m → isTransientFailure (op k)) →
      op (attempt + m) = .ok a →
      tenacityRun op attempt r = (.ok a, attempt + m, (List.range' attempt m).map retryDelay) := by
  intro m
  induction m with
  | zero =>
    intro r attempt _ _ hok
    rw [Nat.add_zero] at hok ⊢
    cases r with
    | zero => simp [tenacityRun, hok]
    | succ r => simp [tenacityRun, hok]
  | succ m ih =>
    intro r attempt hmr h hok
    cases r with
    | zero => omega
    | succ r =>
      obtain ⟨i, hi⟩ := h attempt (Nat.le_refl _) (by omega)
      have hrec := ih r (attempt + 1) (by omega)
        (fun k hk1 hk2 => h k (by omega) (by omega))
        (by rw [show attempt + 1 + m = attempt + (m + 1) by omega]; exact hok)
      simp only [tenacityRun, hi, isOperationalError, if_true]
      rw [hrec]
      have e1 : attempt + (m + 1) = attempt + 1 + m := by omega
      rw [e1, List.range'_succ, List.map_cons]

/-- C1: if the wrapped operation fails Transient (`OperationalError`) on every
attempt, `execute_with_retry` makes exactly 5 attempts and re-raises the
outcome of the 5th (last) attempt unchanged; if it fails Transient on the
first N attempts (N < 5) and succeeds on attempt N + 1, the wrapper returns
that success result. -/
theorem claim_C1_retry_policy {α : Type} (op : Nat → Except PyError α) :
    ((∀ k, 1 ≤ k → k ≤ 5 → isTransientFailure (op k)) →
      execute_with_retry op = op 5 ∧ retryAttempts op = 5) ∧
    (∀ (N : Nat) (a : α), N < 5 →
      (∀ k, 1 ≤ k → k ≤ N → isTransientFailure (op k)) →
      op (N + 1) = .ok a →
      execute_with_retry op = .ok a ∧ retryAttempts op = N + 1) := by
  constructor
  · intro h
    have heq := tenacityRun_all_transient op 4 1 (fun k hk1 hk2 => h k hk1 (by omega))
    unfold execute_with_retry retryAttempts
    rw [heq]
    exact ⟨rfl, rfl⟩
  · intro N a hN h hok
    have heq := tenacityRun_eventually_ok op a N 4 1 (by omega)
      (fun k hk1 hk2 => h k hk1 (by omega))
      (by rw [Nat.add_comm]; exact hok)
    unfold execute_with_retry retryAttempts
    rw [heq]
    refine ⟨rfl, ?_⟩
    show 1 + N = N + 1
    omega

/-- Operation whose every attempt fails with a Transient failure. -/
def opAlwaysFails : Nat → Except PyError Nat :=
  fun k => .error (.operationalError k)

/-- Operation that fails Transient on attempts 1 and 2 and then succeeds. -/
def opFailsTwice : Nat → Except PyError Nat :=
  fun k => if k ≤ 2 then .error (.operationalError k) else .ok 42

theorem claim_C1_retry_policy_witness :
    execute_with_retry opAlwaysFails = .error (.operationalError 5) ∧
    retryAttempts opAlwaysFails = 5 ∧
    execute_with_retry opFailsTwice = .ok 42 ∧
    retryAttempts opFailsTwice = 3 := by
  have h1 := (claim_C1_retry_policy opAlwaysFails).1
    (fun k _ _ => ⟨k, rfl⟩)
  have h2 := (claim_C1_retry_policy opFailsTwice).2 2 42 (by omega)
    (fun k _ hk => ⟨k, by unfold opFailsTwice; rw [if_pos hk]⟩)
    rfl
  exact ⟨h1.1, h1.2, h2.1, h2.2⟩

/-- C2: a Fatal failure — a `SQLAlchemyError` that is not an
`OperationalError` — raised on the first attempt is never retried:
`execute_with_retry` propagates it at once, after exactly one attempt. -/
theorem claim_C2_fatal_not_retried {α : Type} (op : Nat → Except PyError α) (e : PyError)
    (hfatal : isSQLAlchemyError e = true) (hnotop : isOperationalError e = false)
    (h1 : op 1 = .error e) :
    execute_with_retry op = .error e ∧ retryAttempts op = 1 := by
  unfold execute_with_retry retryAttempts
  simp [tenacityRun, h1, hnotop]

/-- Operation that always fails with a Fatal (non-Operational) store error. -/
def opFatal : Nat → Except PyError Nat :=
  fun _ => .error (.sqlAlchemyError 7)

theorem claim_C2_fatal_not_retried_witness :
    execute_with_retry opFatal = .error (.sqlAlchemyError 7) ∧
    retryAttempts opFatal = 1 :=
  claim_C2_fatal_not_retried opFatal (.sqlAlchemyError 7) rfl rfl rfl

/-- C5 counterexample: the claim says the delays between consecutive attempts
are strictly increasing and double each time, but on an always-Transient run
the wrapper sleeps 4, 4, 8, 16 time-units: the first two delays are equal
(tenacity clamps `2 ** 1 = 2` and `2 ** 2 = 4` both up to `min=4`), so the
sequence is neither strictly increasing nor doubling from the start. -/
theorem claim_C5_counterexample :
    retrySleeps opAlwaysFails = [4, 4, 8, 16] ∧
    retryDelay 1 = retryDelay 2 ∧ ¬ retryDelay 1 < retryDelay 2 :=
  ⟨rfl, rfl, by decide⟩

/-- C5 (amended): over the delays the wrapper can actually sleep (after failed
attempts 1..4 of 5), every delay lies between 4 and 30 inclusive, the first
delay is exactly 4, the sequence is non-decreasing, and it is strictly
increasing (doubling) only from the second delay onward. -/
theorem claim_C5_amended (k : Nat) (h1 : 1 ≤ k) (h2 : k ≤ 4) :
    retryDelay 1 = 4 ∧ 4 ≤ retryDelay k ∧ retryDelay k ≤ 30 ∧
    (k ≤ 3 → retryDelay k ≤ retryDelay (k + 1)) ∧
    (2 ≤ k → k ≤ 3 → retryDelay k < retryDelay (k + 1)) := by
  interval_cases k <;> decide

theorem claim_C5_amended_witness :
    retryDelay 1 = 4 ∧ 4 ≤ retryDelay 2 ∧ retryDelay 2 ≤ 30 ∧
    (2 ≤ 3 → retryDelay 2 ≤ retryDelay 3) ∧
    (2 ≤ 2 → 2 ≤ 3 → retryDelay 2 < retryDelay 3) :=
  claim_C5_amended 2 (by decide) (by decide)

/-! ### Dates (`datetime.date.fromisoformat`) -/

/-- A Python `datetime.date` value. -/
structure PyDate where
  year : Nat
  month : Nat
  day : Nat
deriving DecidableEq, Repr

/-- Gregorian leap-year rule, as in `calendar.isleap`. -/
def isLeapYear (y : Nat) : Bool :=
  y % 4 == 0 && (y % 100 != 0 || y % 400 == 0)

/-- Number of days of month `m` of year `y`. -/
def daysInMonth (y m : Nat) : Nat :=
  if m == 2 then (if isLeapYear y then 29 else 28)
  else if m == 4 || m == 6 || m == 9 || m == 11 then 30
  else 31

/-- Splitting a character list on the dash separator.  Same behaviour as
splitting the string on "-"; written on characters by structural recursion so
that concrete dates evaluate inside the kernel. -/
def splitOnDash : List Char → List (List Char)
  | [] => [[]]
  | c :: rest =>
    if c = '-' then [] :: splitOnDash rest
    else
      match splitOnDash rest with
      | [] => [[c]]
      | g :: gs => (c :: g) :: gs

/-- Numeric value of a list of decimal digit characters, most significant
first. -/
def digitsValAux : Nat → List Char → Nat
  | acc, [] => acc
  | acc, c :: cs => digitsValAux (acc * 10 + (c.toNat - 48)) cs

/-- Embedding of `datetime.date.fromisoformat` on the `YYYY-MM-DD` format the
service's payloads use: four-digit year, two-digit month and day separated by
dashes, with the usual calendar range checks (years 1–9999).  Returns `none`
exactly where Python raises `ValueError`. -/
def date_fromisoformat (s : String) : Option PyDate :=
  match splitOnDash s.toList with
  | [ys, ms, ds] =>
    if ys.length == 4 && ms.length == 2 && ds.length == 2 &&
       ys.all Char.isDigit && ms.all Char.isDigit && ds.all Char.isDigit then
      let y := digitsValAux 0 ys
      let m := digitsValAux 0 ms
      let d := digitsValAux 0 ds
      if 1 ≤ y ∧ y ≤ 9999 ∧ 1 ≤ m ∧ m ≤ 12 ∧ 1 ≤ d ∧ d ≤ daysInMonth y m then
        some ⟨y, m, d⟩
      else none
    else none
  | _ => none

/-! ### The `jugador` entity (`app/crud.py`) -/

/-- Modelled from the spec: `schemas.py` is not among the sources.  Per the
spec, the Player create payload carries a name, a birth date as an ISO-8601
string, and nationality attributes; the primary key is generated on insert and
is not part of the payload. -/
structure JugadorCreate where
  nombre : String
  fecha_nac : String
  nacionalidad : String
deriving DecidableEq, Repr

/-- A stored `jugador` row: the create payload with its date parsed plus the
generated `jugador_id`.  This is also the shape of the dict
`crud.create_jugador` returns (`{**data, "jugador_id": ...}`). -/
structure Jugador where
  jugador_id : Nat
  nombre : String
  fecha_nac : PyDate
  nacionalidad : String
deriving DecidableEq, Repr

/-- One SQLAlchemy session over the `jugador` table: `committed` is the durable
table contents, `pending` the view inside the session's open transaction, and
`nextId` the sequence backing the generated primary key. -/
structure JugadorDB where
  nextId : Nat
  committed : List Jugador
  pending : List Jugador
deriving DecidableEq, Repr

/-- Session `db.commit()`: publish the pending changes. -/
def JugadorDB.commit (db : JugadorDB) : JugadorDB :=
  { db with committed := db.pending }

/-- Session `db.rollback()`: discard the pending changes. -/
def JugadorDB.rollback (db : JugadorDB) : JugadorDB :=
  { db with pending := db.committed }

/-- Where, if anywhere, the store raises during one crud call: `failExecute e`
makes the `db.execute(...)` call raise `e` before the statement applies;
`failCommit e` makes the `db.commit()` raise `e` after the statement applied
to the session's pending state. -/
inductive FailPoint where
  | noFail
  | failExecute (e : PyError)
  | failCommit (e : PyError)
deriving DecidableEq, Repr

/-- Embedding of `crud.create_jugador`: parse the payload's date (raising
`ValueError` before any store call when it is malformed), insert a row with
the generated id, commit, and return the payload dict plus the generated
primary key.  On `SQLAlchemyError` from the store, roll back and re-raise;
other exceptions propagate without the rollback branch. -/
def create_jugador (db : JugadorDB) (fp : FailPoint) (j : JugadorCreate) :
    Except PyError Jugador × JugadorDB :=
  match date_fromisoformat j.fecha_nac with
  | none => (.error .valueError, db)
  | some d =>
    match fp with
    | .failExecute e =>
      if isSQLAlchemyError e then (.error e, db.rollback) else (.error e, db)
    | .failCommit e =>
      let row : Jugador := ⟨db.nextId, j.nombre, d, j.nacionalidad⟩
      let db1 := { db with nextId := db.nextId + 1, pending := db.pending ++ [row] }
      if isSQLAlchemyError e then (.error e, db1.rollback) else (.error e, db1)
    | .noFail =>
      let row : Jugador := ⟨db.nextId, j.nombre, d, j.nacionalidad⟩
      let db1 := { db with nextId := db.nextId + 1, pending := db.pending ++ [row] }
      (.ok row, db1.commit)

/-- Embedding of `crud.get_jugador`: query filtered on `jugador_id`, `.first()`
giving the not-found sentinel `none` when no row matches; store errors are
re-raised (no session mutation, so no rollback in the crud layer). -/
def get_jugador (db : JugadorDB) (fp : FailPoint) (jugador_id : Nat) :
    Except PyError (Option Jugador) :=
  match fp with
  | .failExecute e => .error e
  | _ => .ok ((db.pending.filter (fun r => r.jugador_id == jugador_id)).head?)

/-- Embedding of `crud.get_jugadores`: `.offset(skip).limit(limit).all()`. -/
def get_jugadores (db : JugadorDB) (fp : FailPoint) (skip limit : Nat) :
    Except PyError (List Jugador) :=
  match fp with
  | .failExecute e => .error e
  | _ => .ok ((db.pending.drop skip).take limit)

/-- Embedding of `crud.update_jugador`: parse the date, issue an UPDATE of all
payload columns on rows whose `jugador_id` matches, commit, and return `none`
when the statement matched zero rows (no insert happens on a missing key) or
the payload dict plus the key otherwise.  On `SQLAlchemyError`, roll back and
re-raise. -/
def update_jugador (db : JugadorDB) (fp : FailPoint) (jugador_id : Nat) (j : JugadorCreate) :
    Except PyError (Option Jugador) × JugadorDB :=
  match date_fromisoformat j.fecha_nac with
  | none => (.error .valueError, db)
  | some d =>
    let replaced : List Jugador := db.pending.map (fun (r : Jugador) =>
      if r.jugador_id == jugador_id then ⟨jugador_id, j.nombre, d, j.nacionalidad⟩ else r)
    match fp with
    | .failExecute e =>
      if isSQLAlchemyError e then (.error e, db.rollback) else (.error e, db)
    | .failCommit e =>
      let db1 := { db with pending := replaced }
      if isSQLAlchemyError e then (.error e, db1.rollback) else (.error e, db1)
    | .noFail =>
      let rowcount := (db.pending.filter (fun r => r.jugador_id == jugador_id)).length
      let db1 := { db with pending := replaced }
      let db2 := db1.commit
      if rowcount == 0 then (.ok none, db2)
      else (.ok (some ⟨jugador_id, j.nombre, d, j.nacionalidad⟩), db2)

/-- Embedding of `crud.delete_jugador`: issue a DELETE on rows whose
`jugador_id` matches, commit, and return whether the statement's `rowcount`
was positive.  On `SQLAlchemyError`, roll back and re-raise. -/
def delete_jugador (db : JugadorDB) (fp : FailPoint) (jugador_id : Nat) :
    Except PyError Bool × JugadorDB :=
  match fp with
  | .failExecute e =>
    if isSQLAlchemyError e then (.error e, db.rollback) else (.error e, db)
  | .failCommit e =>
    let db1 := { db with pending := db.pending.filter (fun r => !(r.jugador_id == jugador_id)) }
    if isSQLAlchemyError e then (.error e, db1.rollback) else (.error e, db1)
  | .noFail =>
    let rowcount := (db.pending.filter (fun r => r.jugador_id == jugador_id)).length
    let db1 := { db with pending := db.pending.filter (fun r => !(r.jugador_id == jugador_id)) }
    (.ok (decide (0 < rowcount)), db1.commit)

/-! ### The `juega_en` association (`app/crud.py`) -/

/-- Modelled from the spec: `schemas.py` is not among the sources.  Per the
spec, the PlaysFor create payload carries the composite key triple and tenure
dates as ISO-8601 strings, the end date optional. -/
structure JuegaEnCreate where
  jugador_id : Nat
  equipo_id : Nat
  temporada_id : Nat
  fecha_inicio : String
  fecha_fin : Option String
deriving DecidableEq, Repr

/-- A stored `juega_en` row, and also the dict `crud.create_juega_en` returns:
the payload with its dates parsed; the association has no generated id. -/
structure JuegaEn where
  jugador_id : Nat
  equipo_id : Nat
  temporada_id : Nat
  fecha_inicio : PyDate
  fecha_fin : Option PyDate
deriving DecidableEq, Repr

/-- Composite-key match used by the WHERE clauses of `get_juega_en`,
`update_juega_en` and `delete_juega_en`. -/
def JuegaEn.matchesKey (r : JuegaEn) (jugador_id equipo_id temporada_id : Nat) : Bool :=
  r.jugador_id == jugador_id && r.equipo_id == equipo_id && r.temporada_id == temporada_id

/-- One SQLAlchemy session over the `juega_en` table. -/
structure JuegaEnDB where
  committed : List JuegaEn
  pending : List JuegaEn
deriving DecidableEq, Repr

/-- Session `db.commit()` for the association table. -/
def JuegaEnDB.commit (db : JuegaEnDB) : JuegaEnDB :=
  { db with committed := db.pending }

/-- Session `db.rollback()` for the association table. -/
def JuegaEnDB.rollback (db : JuegaEnDB) : JuegaEnDB :=
  { db with pending := db.committed }

/-- Date-parsing prefix shared by `crud.create_juega_en` and
`crud.update_juega_en`: `fecha_inicio` must parse; `fecha_fin` is parsed only
when truthy (the source guards with `if data["fecha_fin"]:`), i.e. present and
non-empty; an untruthy end date is left absent. -/
def parseJuegaEnDates (j : JuegaEnCreate) : Except PyError (PyDate × Option PyDate) :=
  match date_fromisoformat j.fecha_inicio with
  | none => .error .valueError
  | some d1 =>
    match j.fecha_fin with
    | none => .ok (d1, none)
    | some s =>
      if s == "" then .ok (d1, none)
      else
        match date_fromisoformat s with
        | none => .error .valueError
        | some d2 => .ok (d1, some d2)

/-- Embedding of `crud.create_juega_en`: parse the dates, insert the row,
commit, and return the payload dict (no generated identifier).  The duplicate
composite-key check is modelled from the spec: `models.py` is not among the
sources, and the spec states the at-most-one-row-per-triple uniqueness
invariant, so inserting an already-present triple raises a fatal
(non-Operational) store error, which the source's handler rolls back and
re-raises. -/
def create_juega_en (db : JuegaEnDB) (fp : FailPoint) (j : JuegaEnCreate) :
    Except PyError JuegaEn × JuegaEnDB :=
  match parseJuegaEnDates j with
  | .error e => (.error e, db)
  | .ok (d1, d2) =>
    match fp with
    | .failExecute e =>
      if isSQLAlchemyError e then (.error e, db.rollback) else (.error e, db)
    | fp' =>
      if db.pending.any (fun r => r.matchesKey j.jugador_id j.equipo_id j.temporada_id) then
        (.error (.sqlAlchemyError 0), db.rollback)
      else
        let row : JuegaEn := ⟨j.jugador_id, j.equipo_id, j.temporada_id, d1, d2⟩
        let db1 := { db with pending := db.pending ++ [row] }
        match fp' with
        | .failCommit e =>
          if isSQLAlchemyError e then (.error e, db1.rollback) else (.error e, db1)
        | _ => (.ok row, db1.commit)

/-- Embedding of `crud.get_juega_en`: query filtered on the composite triple,
`.first()` giving the sentinel `none` on no match. -/
def get_juega_en (db : JuegaEnDB) (fp : FailPoint) (jugador_id equipo_id temporada_id : Nat) :
    Except PyError (Option JuegaEn) :=
  match fp with
  | .failExecute e => .error e
  | _ => .ok ((db.pending.filter (fun r => r.matchesKey jugador_id equipo_id temporada_id)).head?)

/-- Embedding of `crud.get_juega_en_list`: `.offset(skip).limit(limit).all()`. -/
def get_juega_en_list (db : JuegaEnDB) (fp : FailPoint) (skip limit : Nat) :
    Except PyError (List JuegaEn) :=
  match fp with
  | .failExecute e => .error e
  | _ => .ok ((db.pending.drop skip).take limit)

/-- Embedding of `crud.update_juega_en`: parse the dates, issue an UPDATE of
all payload columns (including the key columns, which come from the payload)
on rows matching the path triple, commit, and return `none` when the statement
matched zero rows or the payload dict otherwise.  On `SQLAlchemyError`, roll
back and re-raise. -/
def update_juega_en (db : JuegaEnDB) (fp : FailPoint)
    (jugador_id equipo_id temporada_id : Nat) (j : JuegaEnCreate) :
    Except PyError (Option JuegaEn) × JuegaEnDB :=
  match parseJuegaEnDates j with
  | .error e => (.error e, db)
  | .ok (d1, d2) =>
    let newRow : JuegaEn := ⟨j.jugador_id, j.equipo_id, j.temporada_id, d1, d2⟩
    let replaced : List JuegaEn := db.pending.map (fun (r : JuegaEn) =>
      if r.matchesKey jugador_id equipo_id temporada_id then newRow else r)
    match fp with
    | .failExecute e =>
      if isSQLAlchemyError e then (.error e, db.rollback) else (.error e, db)
    | .failCommit e =>
      let db1 := { db with pending := replaced }
      if isSQLAlchemyError e then (.error e, db1.rollback) else (.error e, db1)
    | .noFail =>
      let rowcount :=
        (db.pending.filter (fun r => r.matchesKey jugador_id equipo_id temporada_id)).length
      let db1 := { db with pending := replaced }
      let db2 := db1.commit
      if rowcount == 0 then (.ok none, db2)
      else (.ok (some newRow), db2)

/-- Embedding of `crud.delete_juega_en`: issue a DELETE on rows matching the
composite triple, commit, and return whether the statement's `rowcount` was
positive.  On `SQLAlchemyError`, roll back and re-raise. -/
def delete_juega_en (db : JuegaEnDB) (fp : FailPoint)
    (jugador_id equipo_id temporada_id : Nat) :
    Except PyError Bool × JuegaEnDB :=
  let remaining : List JuegaEn :=
    db.pending.filter (fun (r : JuegaEn) => !(r.matchesKey jugador_id equipo_id temporada_id))
  match fp with
  | .failExecute e =>
    if isSQLAlchemyError e then (.error e, db.rollback) else (.error e, db)
  | .failCommit e =>
    let db1 := { db with pending := remaining }
    if isSQLAlchemyError e then (.error e, db1.rollback) else (.error e, db1)
  | .noFail =>
    let rowcount :=
      (db.pending.filter (fun r => r.matchesKey jugador_id equipo_id temporada_id)).length
    let db1 := { db with pending := remaining }
    (.ok (decide (0 < rowcount)), db1.commit)

/-! ### The request dispatcher (`app/main.py`) -/

/-- The four entities served by the dispatcher's routers. -/
inductive Entity where
  | jugador
  | entrenador
  | juegaEn
  | entrena
deriving DecidableEq, Repr

/-- The five route-handler shapes each entity router exposes. -/
inductive RouteOp where
  | listOp
  | getOp
  | createOp
  | updateOp
  | deleteOp
deriving DecidableEq, Repr

/-- Whether the `main.py` route handler for a given entity and operation
invokes its crud function through `execute_with_retry`.  Transliterated
handler by handler from `main.py`: the list/get/update/delete handlers call
`execute_with_retry(crud.…, db, ...)`, while all four create handlers call
`crud.create_…(db=db, ...)` directly. -/
def handlerUsesRetry : Entity → RouteOp → Bool
  | .jugador, .createOp => false
  | .jugador, .listOp => true
  | .jugador, .getOp => true
  | .jugador, .deleteOp => true
  | .jugador, .updateOp => true
  | .entrenador, .createOp => false
  | .entrenador, .listOp => true
  | .entrenador, .getOp => true
  | .entrenador, .deleteOp => true
  | .entrenador, .updateOp => true
  | .juegaEn, .createOp => false
  | .juegaEn, .listOp => true
  | .juegaEn, .getOp => true
  | .juegaEn, .deleteOp => true
  | .juegaEn, .updateOp => true
  | .entrena, .createOp => false
  | .entrena, .listOp => true
  | .entrena, .getOp => true
  | .entrena, .deleteOp => true
  | .entrena, .updateOp => true

/-- An HTTP response as seen by the caller: status code and detail message
(record bodies of success responses are not modelled, only the status). -/
structure HttpResponse where
  status : Nat
  detail : String
deriving DecidableEq, Repr

/-- FastAPI's inner exception layer: an `HTTPException` raised inside a route
handler is turned into its JSON response before user middleware runs; every
other exception keeps propagating. -/
def fastapiExceptionLayer : Except PyError HttpResponse → Except PyError HttpResponse
  | .error (.httpException s d) => .ok ⟨s, d⟩
  | r => r

/-- Embedding of `main.db_session_middleware`: a response passes through;
an escaping `OperationalError` becomes 503, any other `SQLAlchemyError`
becomes 503, and any other exception becomes 500. -/
def db_session_middleware : Except PyError HttpResponse → HttpResponse
  | .ok r => r
  | .error (.operationalError _) =>
    ⟨503, "Error de conexión a la base de datos. Por favor, intente nuevamente."⟩
  | .error (.sqlAlchemyError _) =>
    ⟨503, "Error en la operación de base de datos. Por favor, intente nuevamente."⟩
  | .error _ => ⟨500, "Error interno del servidor"⟩

/-- Response the caller observes for one handler outcome: the FastAPI
exception layer first, then `db_session_middleware`. -/
def runRequest (handler : Except PyError HttpResponse) : HttpResponse :=
  db_session_middleware (fastapiExceptionLayer handler)

/-- Embedding of the `main.create_jugador` route handler (POST /jugadores/):
calls `crud.create_jugador` directly — not through `execute_with_retry` —
turns `SQLAlchemyError` into `HTTPException(503)`, and lets any other
exception (e.g. the `ValueError` from a malformed date) propagate. -/
def route_create_jugador (db : JugadorDB) (fp : FailPoint) (j : JugadorCreate) :
    Except PyError HttpResponse × JugadorDB :=
  match create_jugador db fp j with
  | (.ok _, db1) => (.ok ⟨200, ""⟩, db1)
  | (.error e, db1) =>
    if isSQLAlchemyError e then
      (.error (.httpException 503 "Error al crear el jugador"), db1)
    else (.error e, db1)

/-- Embedding of the `main.read_jugador` route handler (GET /jugadores/{id}):
fetches through `execute_with_retry(crud.get_jugador, db, ...)`; the `None`
sentinel becomes `HTTPException(404)`, a `SQLAlchemyError` becomes
`HTTPException(503)`. -/
def route_read_jugador (db : JugadorDB) (fp : FailPoint) (jugador_id : Nat) :
    Except PyError HttpResponse :=
  match execute_with_retry (fun _ => get_jugador db fp jugador_id) with
  | .ok none => .error (.httpException 404 "Jugador no encontrado")
  | .ok (some _) => .ok ⟨200, ""⟩
  | .error e =>
    if isSQLAlchemyError e then .error (.httpException 503 "Error al obtener el jugador")
    else .error e

/-- C3 counterexample: the claim says all of list, get, create, update and
delete route handlers go through the Retry Wrapper, but the POST /jugadores/
handler calls `crud.create_jugador` directly, without `execute_with_retry`. -/
theorem claim_C3_counterexample :
    handlerUsesRetry Entity.jugador RouteOp.createOp = false := by decide

/-- C3 (amended): for each of the four entities, the list, get, update and
delete route handlers invoke their data-access function through the Retry
Wrapper (`execute_with_retry`), but the create handlers of all four entities
call their data-access function directly, bypassing the wrapper. -/
theorem claim_C3_retry_wiring :
    ∀ (e : Entity) (op : RouteOp),
      handlerUsesRetry e op = true ↔ op ≠ RouteOp.createOp := by
  intro e op
  cases e <;> cases op <;> decide

/-! ### Helper lemmas shared by the claim proofs -/

theorem filter_eq_nil_of_forall_false {α : Type} (p : α → Bool) (l : List α)
    (h : ∀ a ∈ l, p a = false) : l.filter p = [] := by
  induction l with
  | nil => rfl
  | cons x xs ih =>
    simp only [List.filter, h x (List.mem_cons_self x xs)]
    exact ih (fun a ha => h a (List.mem_cons_of_mem _ ha))

theorem map_ite_eq_self {α : Type} (p : α → Bool) (c : α) (l : List α)
    (h : ∀ a ∈ l, p a = false) :
    l.map (fun a => if p a then c else a) = l := by
  induction l with
  | nil => rfl
  | cons x xs ih =>
    simp only [List.map_cons, h x (List.mem_cons_self x xs), Bool.false_eq_true, if_false,
      List.cons.injEq, true_and]
    exact ih (fun a ha => h a (List.mem_cons_of_mem _ ha))

theorem filter_not_filter {α : Type} (p : α → Bool) (l : List α) :
    (l.filter (fun a => !(p a))).filter p = [] := by
  apply filter_eq_nil_of_forall_false
  intro a ha
  have hmem := List.mem_filter.mp ha
  simpa using hmem.2

theorem length_filter_pos {α : Type} (p : α → Bool) (l : List α) (a : α)
    (ha : a ∈ l) (hp : p a = true) : 0 < (l.filter p).length :=
  List.length_pos.mpr (List.ne_nil_of_mem (List.mem_filter.mpr ⟨ha, hp⟩))

theorem any_eq_false_of_forall {α : Type} (p : α → Bool) (l : List α)
    (h : ∀ a ∈ l, p a = false) : l.any p = false := by
  induction l with
  | nil => rfl
  | cons x xs ih =>
    simp only [List.any_cons, h x (List.mem_cons_self x xs), Bool.false_or]
    exact ih (fun a ha => h a (List.mem_cons_of_mem _ ha))

theorem jugadorCommit_eq_self (db : JugadorDB) (h : db.pending = db.committed) :
    db.commit = db := by
  cases db
  simp_all [JugadorDB.commit]

theorem juegaEnCommit_eq_self (db : JuegaEnDB) (h : db.pending = db.committed) :
    db.commit = db := by
  cases db
  simp_all [JuegaEnDB.commit]

/-! ### Sample data for the witness theorems -/

/-- Payload whose required date field is a malformed ISO-8601 string. -/
def malformedPayload : JugadorCreate := ⟨"X", "2024-13-40", "ES"⟩

/-- An empty player store with a fresh session. -/
def emptyJugadorDB : JugadorDB := ⟨1, [], []⟩

/-- A sample stored player row. -/
def sampleJugador : Jugador := ⟨1, "Leo", ⟨1987, 6, 24⟩, "AR"⟩

/-- A one-row player store with a fresh session. -/
def sampleJugadorDB : JugadorDB := ⟨2, [sampleJugador], [sampleJugador]⟩

/-- A sample valid player create payload. -/
def samplePayload : JugadorCreate := ⟨"Kun", "1988-06-02", "AR"⟩

/-- A sample stored association row. -/
def sampleJuegaEn : JuegaEn := ⟨1, 10, 3, ⟨2020, 7, 1⟩, none⟩

/-- A one-row association store with a fresh session. -/
def sampleJuegaEnDB : JuegaEnDB := ⟨[sampleJuegaEn], [sampleJuegaEn]⟩

/-- A sample valid association create payload on a fresh triple. -/
def sampleAssocPayload : JuegaEnCreate := ⟨2, 10, 3, "2021-07-01", some "2022-06-30"⟩

/-! ### Claims C4 and C9 -/

/-- C4 counterexample: for the malformed date "2024-13-40" the create
operation does perform no store call — the store comes back unchanged and the
failure is the date-parsing `ValueError` — but the dispatcher surfaces it as
HTTP 500, the middleware's generic internal-error branch, not as the claimed
4xx-class 422 response. -/
theorem claim_C4_counterexample :
    create_jugador emptyJugadorDB .noFail malformedPayload =
      (.error .valueError, emptyJugadorDB) ∧
    (runRequest (route_create_jugador emptyJugadorDB .noFail malformedPayload).1).status = 500 ∧
    ¬ (runRequest (route_create_jugador emptyJugadorDB .noFail malformedPayload).1).status = 422 :=
  ⟨rfl, rfl, by decide⟩

/-- C4 (amended): for every create payload whose required date field is a
malformed ISO-8601 string, the create operation performs no store call (the
session comes back unchanged) and fails with the date-parsing `ValueError`,
but the dispatcher surfaces that failure as the generic HTTP 500
internal-error response — not as a 4xx/422 validation response — because the
route handler and the middleware catch only `SQLAlchemyError` specifically. -/
theorem claim_C4_validation (db : JugadorDB) (fp : FailPoint) (j : JugadorCreate)
    (hbad : date_fromisoformat j.fecha_nac = none) :
    create_jugador db fp j = (.error .valueError, db) ∧
    (route_create_jugador db fp j).2 = db ∧
    runRequest (route_create_jugador db fp j).1 = ⟨500, "Error interno del servidor"⟩ := by
  have h1 : create_jugador db fp j = (.error .valueError, db) := by
    unfold create_jugador
    rw [hbad]
  refine ⟨h1, ?_, ?_⟩ <;>
    simp [route_create_jugador, h1, isSQLAlchemyError, runRequest, fastapiExceptionLayer,
      db_session_middleware]

theorem claim_C4_validation_witness :
    create_jugador emptyJugadorDB .noFail malformedPayload =
      (.error .valueError, emptyJugadorDB) ∧
    (route_create_jugador emptyJugadorDB .noFail malformedPayload).2 = emptyJugadorDB ∧
    runRequest (route_create_jugador emptyJugadorDB .noFail malformedPayload).1 =
      ⟨500, "Error interno del servidor"⟩ :=
  claim_C4_validation emptyJugadorDB .noFail malformedPayload rfl

/-- C9: for every key absent from the store, `get` returns the not-found
sentinel `None` as a normal (non-error) result, and the GET /jugadores/{id}
dispatcher maps that sentinel to an HTTP 404 response. -/
theorem claim_C9_get_absent (db : JugadorDB) (jugador_id : Nat)
    (habs : ∀ r ∈ db.pending, r.jugador_id ≠ jugador_id) :
    get_jugador db .noFail jugador_id = .ok none ∧
    runRequest (route_read_jugador db .noFail jugador_id) =
      ⟨404, "Jugador no encontrado"⟩ := by
  have hnil : db.pending.filter (fun r => r.jugador_id == jugador_id) = [] :=
    filter_eq_nil_of_forall_false _ _ (fun r hr => by
      simpa using habs r hr)
  have h1 : get_jugador db .noFail jugador_id = .ok none := by
    simp [get_jugador, hnil]
  refine ⟨h1, ?_⟩
  have hfun : (fun (_ : Nat) => get_jugador db .noFail jugador_id) =
      (fun _ => (Except.ok none : Except PyError (Option Jugador))) :=
    funext (fun _ => h1)
  unfold route_read_jugador
  rw [hfun]
  rfl

/-- Key 5 is absent from the sample one-row store. -/
theorem claim_C9_get_absent_witness :
    get_jugador sampleJugadorDB .noFail 5 = .ok none ∧
    runRequest (route_read_jugador sampleJugadorDB .noFail 5) =
      ⟨404, "Jugador no encontrado"⟩ :=
  claim_C9_get_absent sampleJugadorDB 5
    (fun r hr => by rw [List.mem_singleton.mp hr]; decide)

/-! ### Claims C6, C7, C8, C10 -/

/-- C6: for a key matching zero rows, update returns the not-found sentinel
`None`, creates no row (no upsert) and leaves the store unchanged; for a key
matching a row, update fully replaces the matching row's columns with the
payload and returns the updated record — for the player table and the
composite-key association table alike. -/
theorem claim_C6_update_semantics (db : JugadorDB) (adb : JuegaEnDB)
    (jugador_id k1 k2 k3 : Nat) (j : JugadorCreate) (d : PyDate)
    (aj : JuegaEnCreate) (d1 : PyDate) (d2 : Option PyDate)
    (hd : date_fromisoformat j.fecha_nac = some d)
    (had : parseJuegaEnDates aj = .ok (d1, d2))
    (hsess : db.pending = db.committed)
    (hasess : adb.pending = adb.committed) :
    ((∀ r ∈ db.pending, r.jugador_id ≠ jugador_id) →
      update_jugador db .noFail jugador_id j = (.ok none, db)) ∧
    ((∃ r ∈ db.pending, r.jugador_id = jugador_id) →
      update_jugador db .noFail jugador_id j =
        (.ok (some ⟨jugador_id, j.nombre, d, j.nacionalidad⟩),
         { nextId := db.nextId,
           committed := db.pending.map (fun (r : Jugador) =>
             if r.jugador_id == jugador_id then ⟨jugador_id, j.nombre, d, j.nacionalidad⟩
             else r),
           pending := db.pending.map (fun (r : Jugador) =>
             if r.jugador_id == jugador_id then ⟨jugador_id, j.nombre, d, j.nacionalidad⟩
             else r) })) ∧
    ((∀ r ∈ adb.pending, r.matchesKey k1 k2 k3 = false) →
      update_juega_en adb .noFail k1 k2 k3 aj = (.ok none, adb)) ∧
    ((∃ r ∈ adb.pending, r.matchesKey k1 k2 k3 = true) →
      update_juega_en adb .noFail k1 k2 k3 aj =
        (.ok (some ⟨aj.jugador_id, aj.equipo_id, aj.temporada_id, d1, d2⟩),
         { committed := adb.pending.map (fun (r : JuegaEn) =>
             if r.matchesKey k1 k2 k3 then ⟨aj.jugador_id, aj.equipo_id, aj.temporada_id, d1, d2⟩
             else r),
           pending := adb.pending.map (fun (r : JuegaEn) =>
             if r.matchesKey k1 k2 k3 then ⟨aj.jugador_id, aj.equipo_id, aj.temporada_id, d1, d2⟩
             else r) })) := by
  refine ⟨?_, ?_, ?_, ?_⟩
  · intro habs
    have hnil := filter_eq_nil_of_forall_false
      (fun (r : Jugador) => r.jugador_id == jugador_id) db.pending
      (fun r hr => by simpa using habs r hr)
    have hmap := map_ite_eq_self (fun (r : Jugador) => r.jugador_id == jugador_id)
      (⟨jugador_id, j.nombre, d, j.nacionalidad⟩ : Jugador) db.pending
      (fun r hr => by simpa using habs r hr)
    simp only [update_jugador, hd, hnil, hmap, List.length_nil, beq_self_eq_true, if_true]
    exact congrArg (Prod.mk (Except.ok none)) (jugadorCommit_eq_self db hsess)
  · rintro ⟨r, hr, hkey⟩
    have hpos := length_filter_pos (fun (r : Jugador) => r.jugador_id == jugador_id)
      db.pending r hr (by simpa using hkey)
    have hne : ((db.pending.filter
        (fun (r : Jugador) => r.jugador_id == jugador_id)).length == 0) = false := by
      simp only [beq_eq_false_iff_ne]
      omega
    simp only [update_jugador, hd, hne, Bool.false_eq_true, if_false]
    rfl
  · intro habs
    have hnil := filter_eq_nil_of_forall_false
      (fun (r : JuegaEn) => r.matchesKey k1 k2 k3) adb.pending habs
    have hmap := map_ite_eq_self (fun (r : JuegaEn) => r.matchesKey k1 k2 k3)
      (⟨aj.jugador_id, aj.equipo_id, aj.temporada_id, d1, d2⟩ : JuegaEn) adb.pending habs
    simp only [update_juega_en, had, hnil, hmap, List.length_nil, beq_self_eq_true, if_true]
    exact congrArg (Prod.mk (Except.ok none)) (juegaEnCommit_eq_self adb hasess)
  · rintro ⟨r, hr, hkey⟩
    have hpos := length_filter_pos (fun (r : JuegaEn) => r.matchesKey k1 k2 k3)
      adb.pending r hr hkey
    have hne : ((adb.pending.filter
        (fun (r : JuegaEn) => r.matchesKey k1 k2 k3)).length == 0) = false := by
      simp only [beq_eq_false_iff_ne]
      omega
    simp only [update_juega_en, had, hne, Bool.false_eq_true, if_false]
    rfl

theorem claim_C6_update_semantics_witness :
    update_jugador sampleJugadorDB .noFail 5 samplePayload = (.ok none, sampleJugadorDB) ∧
    (update_jugador sampleJugadorDB .noFail 1 samplePayload).1 =
      .ok (some ⟨1, "Kun", ⟨1988, 6, 2⟩, "AR"⟩) ∧
    update_juega_en sampleJuegaEnDB .noFail 9 9 9 sampleAssocPayload =
      (.ok none, sampleJuegaEnDB) ∧
    (update_juega_en sampleJuegaEnDB .noFail 1 10 3 sampleAssocPayload).1 =
      .ok (some ⟨2, 10, 3, ⟨2021, 7, 1⟩, some ⟨2022, 6, 30⟩⟩) := by
  have h1 := claim_C6_update_semantics sampleJugadorDB sampleJuegaEnDB 5 9 9 9
    samplePayload ⟨1988, 6, 2⟩ sampleAssocPayload ⟨2021, 7, 1⟩ (some ⟨2022, 6, 30⟩)
    rfl rfl rfl rfl
  have h2 := claim_C6_update_semantics sampleJugadorDB sampleJuegaEnDB 1 1 10 3
    samplePayload ⟨1988, 6, 2⟩ sampleAssocPayload ⟨2021, 7, 1⟩ (some ⟨2022, 6, 30⟩)
    rfl rfl rfl rfl
  refine ⟨h1.1 (fun r hr => by rw [List.mem_singleton.mp hr]; decide),
    congrArg Prod.fst (h2.2.1 ⟨sampleJugador, List.mem_singleton.mpr rfl, rfl⟩),
    h1.2.2.1 (fun r hr => by rw [List.mem_singleton.mp hr]; decide),
    congrArg Prod.fst (h2.2.2.2 ⟨sampleJuegaEn, List.mem_singleton.mpr rfl, by decide⟩)⟩

/-- C7: delete returns a boolean saying whether a row was actually removed,
and is idempotent: deleting a present key twice yields `true` then `false`,
and deleting an absent key yields `false` rather than an error — for the
player table and the composite-key association table alike. -/
theorem claim_C7_delete_idempotent (db : JugadorDB) (adb : JuegaEnDB)
    (jugador_id k1 k2 k3 : Nat) :
    ((∃ r ∈ db.pending, r.jugador_id = jugador_id) →
      (delete_jugador db .noFail jugador_id).1 = .ok true ∧
      (delete_jugador (delete_jugador db .noFail jugador_id).2 .noFail jugador_id).1 =
        .ok false) ∧
    ((∀ r ∈ db.pending, r.jugador_id ≠ jugador_id) →
      (delete_jugador db .noFail jugador_id).1 = .ok false) ∧
    ((∃ r ∈ adb.pending, r.matchesKey k1 k2 k3 = true) →
      (delete_juega_en adb .noFail k1 k2 k3).1 = .ok true ∧
      (delete_juega_en (delete_juega_en adb .noFail k1 k2 k3).2 .noFail k1 k2 k3).1 =
        .ok false) ∧
    ((∀ r ∈ adb.pending, r.matchesKey k1 k2 k3 = false) →
      (delete_juega_en adb .noFail k1 k2 k3).1 = .ok false) := by
  refine ⟨?_, ?_, ?_, ?_⟩
  · rintro ⟨r, hr, hkey⟩
    have hpos := length_filter_pos (fun (r : Jugador) => r.jugador_id == jugador_id)
      db.pending r hr (by simpa using hkey)
    have h2nil := filter_not_filter
      (fun (r : Jugador) => r.jugador_id == jugador_id) db.pending
    constructor
    · simp only [delete_jugador]
      rw [decide_eq_true hpos]
    · simp only [delete_jugador, JugadorDB.commit, h2nil, List.length_nil]
      rfl
  · intro habs
    have hnil := filter_eq_nil_of_forall_false
      (fun (r : Jugador) => r.jugador_id == jugador_id) db.pending
      (fun r hr => by simpa using habs r hr)
    simp only [delete_jugador, hnil, List.length_nil]
    rfl
  · rintro ⟨r, hr, hkey⟩
    have hpos := length_filter_pos (fun (r : JuegaEn) => r.matchesKey k1 k2 k3)
      adb.pending r hr hkey
    have h2nil := filter_not_filter
      (fun (r : JuegaEn) => r.matchesKey k1 k2 k3) adb.pending
    constructor
    · simp only [delete_juega_en]
      rw [decide_eq_true hpos]
    · simp only [delete_juega_en, JuegaEnDB.commit, h2nil, List.length_nil]
      rfl
  · intro habs
    have hnil := filter_eq_nil_of_forall_false
      (fun (r : JuegaEn) => r.matchesKey k1 k2 k3) adb.pending habs
    simp only [delete_juega_en, hnil, List.length_nil]
    rfl

theorem claim_C7_delete_idempotent_witness :
    (delete_jugador sampleJugadorDB .noFail 1).1 = .ok true ∧
    (delete_jugador (delete_jugador sampleJugadorDB .noFail 1).2 .noFail 1).1 = .ok false ∧
    (delete_jugador sampleJugadorDB .noFail 5).1 = .ok false ∧
    (delete_juega_en sampleJuegaEnDB .noFail 1 10 3).1 = .ok true ∧
    (delete_juega_en (delete_juega_en sampleJuegaEnDB .noFail 1 10 3).2 .noFail 1 10 3).1 =
      .ok false ∧
    (delete_juega_en sampleJuegaEnDB .noFail 9 9 9).1 = .ok false := by
  have h1 := claim_C7_delete_idempotent sampleJugadorDB sampleJuegaEnDB 1 1 10 3
  have h2 := claim_C7_delete_idempotent sampleJugadorDB sampleJuegaEnDB 5 9 9 9
  have hj := h1.1 ⟨sampleJugador, List.mem_singleton.mpr rfl, rfl⟩
  have ha := h1.2.2.1 ⟨sampleJuegaEn, List.mem_singleton.mpr rfl, by decide⟩
  exact ⟨hj.1, hj.2,
    h2.2.1 (fun r hr => by rw [List.mem_singleton.mp hr]; decide),
    ha.1, ha.2,
    h2.2.2.2 (fun r hr => by rw [List.mem_singleton.mp hr]; decide)⟩

/-- C8: for a valid payload, create returns the input record plus the
store-generated identifier for the player entity, and exactly the input
record for the association entity (which has no generated identifier); in
both cases a get on the resulting key finds that record. -/
theorem claim_C8_create_then_get (db : JugadorDB) (adb : JuegaEnDB)
    (j : JugadorCreate) (d : PyDate) (aj : JuegaEnCreate) (d1 : PyDate) (d2 : Option PyDate)
    (hd : date_fromisoformat j.fecha_nac = some d)
    (had : parseJuegaEnDates aj = .ok (d1, d2))
    (hfresh : ∀ r ∈ db.pending, r.jugador_id ≠ db.nextId)
    (hnew : ∀ r ∈ adb.pending,
      r.matchesKey aj.jugador_id aj.equipo_id aj.temporada_id = false) :
    (create_jugador db .noFail j).1 = .ok ⟨db.nextId, j.nombre, d, j.nacionalidad⟩ ∧
    get_jugador (create_jugador db .noFail j).2 .noFail db.nextId =
      .ok (some ⟨db.nextId, j.nombre, d, j.nacionalidad⟩) ∧
    (create_juega_en adb .noFail aj).1 =
      .ok ⟨aj.jugador_id, aj.equipo_id, aj.temporada_id, d1, d2⟩ ∧
    get_juega_en (create_juega_en adb .noFail aj).2 .noFail
        aj.jugador_id aj.equipo_id aj.temporada_id =
      .ok (some ⟨aj.jugador_id, aj.equipo_id, aj.temporada_id, d1, d2⟩) := by
  have hnilj := filter_eq_nil_of_forall_false
    (fun (r : Jugador) => r.jugador_id == db.nextId) db.pending
    (fun r hr => by simpa using hfresh r hr)
  have hnila := filter_eq_nil_of_forall_false
    (fun (r : JuegaEn) => r.matchesKey aj.jugador_id aj.equipo_id aj.temporada_id)
    adb.pending hnew
  have hany := any_eq_false_of_forall
    (fun (r : JuegaEn) => r.matchesKey aj.jugador_id aj.equipo_id aj.temporada_id)
    adb.pending hnew
  refine ⟨?_, ?_, ?_, ?_⟩
  · simp [create_jugador, hd]
  · simp only [create_jugador, hd, JugadorDB.commit, get_jugador, List.filter_append, hnilj,
      List.nil_append, List.filter, beq_self_eq_true]
    rfl
  · simp [create_juega_en, had, hany]
  · simp only [create_juega_en, had, hany, Bool.false_eq_true, if_false, JuegaEnDB.commit,
      get_juega_en, List.filter_append, hnila, List.nil_append, List.filter]
    simp [JuegaEn.matchesKey]

theorem claim_C8_create_then_get_witness :
    (create_jugador sampleJugadorDB .noFail samplePayload).1 =
      .ok ⟨2, "Kun", ⟨1988, 6, 2⟩, "AR"⟩ ∧
    get_jugador (create_jugador sampleJugadorDB .noFail samplePayload).2 .noFail 2 =
      .ok (some ⟨2, "Kun", ⟨1988, 6, 2⟩, "AR"⟩) ∧
    (create_juega_en sampleJuegaEnDB .noFail sampleAssocPayload).1 =
      .ok ⟨2, 10, 3, ⟨2021, 7, 1⟩, some ⟨2022, 6, 30⟩⟩ ∧
    get_juega_en (create_juega_en sampleJuegaEnDB .noFail sampleAssocPayload).2 .noFail
        2 10 3 =
      .ok (some ⟨2, 10, 3, ⟨2021, 7, 1⟩, some ⟨2022, 6, 30⟩⟩) :=
  claim_C8_create_then_get sampleJugadorDB sampleJuegaEnDB samplePayload ⟨1988, 6, 2⟩
    sampleAssocPayload ⟨2021, 7, 1⟩ (some ⟨2022, 6, 30⟩) rfl rfl
    (fun r hr => by rw [List.mem_singleton.mp hr]; decide)
    (fun r hr => by rw [List.mem_singleton.mp hr]; decide)

/-- Outcome of a player-table write that was rolled back: the store error was
re-raised and both the durable contents and the session view equal the
original durable contents. -/
def rolledBackJugador {β : Type} (out : Except PyError β × JugadorDB)
    (db : JugadorDB) (e : PyError) : Prop :=
  out.1 = .error e ∧ out.2.committed = db.committed ∧ out.2.pending = db.committed

/-- Outcome of an association-table write that was rolled back. -/
def rolledBackJuegaEn {β : Type} (out : Except PyError β × JuegaEnDB)
    (db : JuegaEnDB) (e : PyError) : Prop :=
  out.1 = .error e ∧ out.2.committed = db.committed ∧ out.2.pending = db.committed

/-- C10: for every write operation (create, update, delete), if the store
raises any `SQLAlchemyError` — Transient or Fatal, at the statement or at the
commit — the operation rolls back the open transaction before re-raising, so
the durable store is left unchanged by the failed write attempt. -/
theorem claim_C10_failed_write_rollback (db : JugadorDB) (adb : JuegaEnDB)
    (e : PyError) (fp : FailPoint) (jugador_id k1 k2 k3 : Nat)
    (j : JugadorCreate) (d : PyDate) (aj : JuegaEnCreate) (d1 : PyDate) (d2 : Option PyDate)
    (hE : isSQLAlchemyError e = true)
    (hfp : fp = .failExecute e ∨ fp = .failCommit e)
    (hd : date_fromisoformat j.fecha_nac = some d)
    (had : parseJuegaEnDates aj = .ok (d1, d2))
    (hnodup : ∀ r ∈ adb.pending,
      r.matchesKey aj.jugador_id aj.equipo_id aj.temporada_id = false) :
    rolledBackJugador (create_jugador db fp j) db e ∧
    rolledBackJugador (update_jugador db fp jugador_id j) db e ∧
    rolledBackJugador (delete_jugador db fp jugador_id) db e ∧
    rolledBackJuegaEn (create_juega_en adb fp aj) adb e ∧
    rolledBackJuegaEn (update_juega_en adb fp k1 k2 k3 aj) adb e ∧
    rolledBackJuegaEn (delete_juega_en adb fp k1 k2 k3) adb e := by
  have hany := any_eq_false_of_forall
    (fun (r : JuegaEn) => r.matchesKey aj.jugador_id aj.equipo_id aj.temporada_id)
    adb.pending hnodup
  rcases hfp with rfl | rfl
  · refine ⟨?_, ?_, ?_, ?_, ?_, ?_⟩ <;>
      simp [rolledBackJugador, rolledBackJuegaEn, create_jugador, update_jugador,
        delete_jugador, create_juega_en, update_juega_en, delete_juega_en,
        JugadorDB.rollback, JuegaEnDB.rollback, hd, had, hE]
  · refine ⟨?_, ?_, ?_, ?_, ?_, ?_⟩ <;>
      simp [rolledBackJugador, rolledBackJuegaEn, create_jugador, update_jugador,
        delete_jugador, create_juega_en, update_juega_en, delete_juega_en,
        JugadorDB.rollback, JuegaEnDB.rollback, hd, had, hE, hany]

theorem claim_C10_failed_write_rollback_witness :
    rolledBackJugador (create_jugador sampleJugadorDB (.failCommit (.sqlAlchemyError 3))
      samplePayload) sampleJugadorDB (.sqlAlchemyError 3) ∧
    rolledBackJugador (update_jugador sampleJugadorDB (.failCommit (.sqlAlchemyError 3))
      1 samplePayload) sampleJugadorDB (.sqlAlchemyError 3) ∧
    rolledBackJugador (delete_jugador sampleJugadorDB (.failCommit (.sqlAlchemyError 3))
      1) sampleJugadorDB (.sqlAlchemyError 3) ∧
    rolledBackJuegaEn (create_juega_en sampleJuegaEnDB (.failCommit (.sqlAlchemyError 3))
      sampleAssocPayload) sampleJuegaEnDB (.sqlAlchemyError 3) ∧
    rolledBackJuegaEn (update_juega_en sampleJuegaEnDB (.failCommit (.sqlAlchemyError 3))
      1 10 3 sampleAssocPayload) sampleJuegaEnDB (.sqlAlchemyError 3) ∧
    rolledBackJuegaEn (delete_juega_en sampleJuegaEnDB (.failCommit (.sqlAlchemyError 3))
      1 10 3) sampleJuegaEnDB (.sqlAlchemyError 3) :=
  claim_C10_failed_write_rollback sampleJugadorDB sampleJuegaEnDB (.sqlAlchemyError 3)
    (.failCommit (.sqlAlchemyError 3)) 1 1 10 3 samplePayload ⟨1988, 6, 2⟩
    sampleAssocPayload ⟨2021, 7, 1⟩ (some ⟨2022, 6, 30⟩) rfl (Or.inr rfl) rfl rfl
    (fun r hr => by rw [List.mem_singleton.mp hr]; decide)

end PersonnelService
